import Mathlib

/-!
Verification of the manager_mccode capture-to-storage pipeline.

Shallow embedding of the Python sources:
  manager_mccode/models/screen_summary.py   (data model)
  manager_mccode/models/focus_session.py    (FocusSession.add_activity)
  manager_mccode/services/analyzer.py       (GeminiAnalyzer: parsing, sessions)
  manager_mccode/services/batch.py          (BatchProcessor)
  manager_mccode/services/database.py       (DatabaseManager: store/read paths)
  manager_mccode/services/runner.py         (ServiceRunner.run error ceiling)
  manager_mccode/main.py                    (ManagerMcCode.run error ceiling)

Timestamps are modelled as natural numbers (seconds).  Python floats that
carry exact decimal data (scores, confidences, attention levels) are
modelled as rationals.  SQLite tables are lists of row structures carried
in an explicit state record; a transaction that commits is a pure state
update, and code that catches every exception and returns a default is
modelled with Except on the failing part.
-/

namespace ManagerMccode

/-! ## Data model: manager_mccode/models/screen_summary.py -/

/-- FocusIndicators (screen_summary.py).  attention_level is an int in
[0,100] (pydantic bound, not re-imposed here); the two levels are free
strings in the source ("low"/"medium"/"high", "organized"/"mixed"/
"scattered").  The optional window_state/tab_count/content_type fields are
never read by the verified code paths and are omitted. -/
structure FocusIndicators where
  attention_level : Int
  context_switches : String
  workspace_organization : String
deriving Repr, DecidableEq

/-- Activity (screen_summary.py).  purpose defaults to "Unknown" in the
source model; it is a plain string here. -/
structure Activity where
  name : String
  category : String
  purpose : String
  focus_indicators : FocusIndicators
deriving Repr, DecidableEq

/-- Context (screen_summary.py): primary_task, attention_state,
environment, confidence (default 0.5, in [0,1]). -/
structure Context where
  primary_task : String
  attention_state : String
  environment : String
  confidence : ℚ
deriving Repr, DecidableEq

/-- ScreenSummary (screen_summary.py): timestamp, summary text,
activities, optional context. -/
structure ScreenSummary where
  timestamp : Nat
  summary : String
  activities : List Activity
  context : Option Context
deriving Repr, DecidableEq

/-! ## FocusSession: manager_mccode/models/focus_session.py

The analyzer constructs sessions from activities that carry their own
timestamp (services/database.py get_focus_metrics attaches one); the
grouping code reads name, timestamp and focus_indicators, modelled by
TimedActivity. -/

/-- An activity as consumed by GeminiAnalyzer._group_into_sessions:
name, its snapshot timestamp, and the focus indicators. -/
structure TimedActivity where
  name : String
  timestamp : Nat
  focus_indicators : FocusIndicators
deriving Repr, DecidableEq

/-- FocusSession (focus_session.py dataclass).  The triggers list is
never touched by the verified operations and is omitted. -/
structure FocusSession where
  start_time : Nat
  activity_type : String
  end_time : Option Nat := none
  duration_minutes : Nat := 0
  context_switches : Nat := 0
  attention_score : ℚ := 0
deriving Repr, DecidableEq

/-- FocusSession.add_activity (focus_session.py lines 22-30):
set end_time to the activity timestamp, recompute duration_minutes as
whole minutes of end_time - start_time, smooth the attention score as
(old + new) / 2, and bump the switch counter when the activity reports
"high" context switches. -/
def FocusSession.add_activity (s : FocusSession) (a : TimedActivity) : FocusSession :=
  let e := a.timestamp
  { s with
    end_time := some e
    duration_minutes := (e - s.start_time) / 60
    attention_score := (s.attention_score + (a.focus_indicators.attention_level : ℚ)) / 2
    context_switches :=
      if a.focus_indicators.context_switches = "high" then
        s.context_switches + 1
      else
        s.context_switches }

/-! ## Session grouping: GeminiAnalyzer._group_into_sessions
(services/analyzer.py lines 188-216). -/

/-- A fresh session as constructed inside _group_into_sessions:
FocusSession(start_time=activity.timestamp, activity_type=activity.name). -/
def newSession (a : TimedActivity) : FocusSession :=
  { start_time := a.timestamp, activity_type := a.name }

/-- One iteration of the loop in _group_into_sessions: start a new
session when there is no current one, the activity name differs, or the
activity reports "high" context switches; then fold the activity into the
current session. -/
def groupStep (st : List FocusSession × Option FocusSession) (a : TimedActivity) :
    List FocusSession × Option FocusSession :=
  match st with
  | (done, none) => (done, some ((newSession a).add_activity a))
  | (done, some cur) =>
    if a.name ≠ cur.activity_type ∨ a.focus_indicators.context_switches = "high" then
      (done ++ [cur], some ((newSession a).add_activity a))
    else
      (done, some (cur.add_activity a))

/-- GeminiAnalyzer._group_into_sessions: fold the activities through
groupStep and append the still-open session, if any. -/
def groupIntoSessions (as' : List TimedActivity) : List FocusSession :=
  match as'.foldl groupStep ([], none) with
  | (done, none) => done
  | (done, some cur) => done ++ [cur]

/-! ## Batch processor: manager_mccode/services/batch.py

pending_screenshots is a Python dict from capture timestamp to file path,
modelled as an association list with (in well-formed states) distinct
keys.  The Gemini model handle, prompt text and image bytes are I/O
concerns outside the embedding: analysis of one item is abstracted by an
oracle returning Option (analyze_screenshot catches every exception and
returns None on failure).  File existence is an oracle on paths. -/

/-- BatchProcessor state: the pending timestamp-to-path map, the time of
the last batch (None initially, to trigger immediate processing at
startup), the configured size and interval, and the shutdown flag. -/
structure BatchState where
  pending : List (Nat × String)
  lastBatchTime : Option Nat
  batchSize : Nat
  batchInterval : Nat
  shutdownRequested : Bool
deriving Repr, DecidableEq

/-- BatchProcessor.is_batch_ready (batch.py lines 69-79).  Before any
batch has run (last_batch_time is None) every non-empty queue is ready
("during startup, process any pending screenshots immediately");
afterwards readiness is size reached or interval elapsed. -/
def isBatchReady (now : Nat) (st : BatchState) : Bool :=
  match st.lastBatchTime with
  | none => !st.pending.isEmpty
  | some t =>
    decide (st.batchSize ≤ st.pending.length) || decide (st.batchInterval ≤ now - t)

/-- Ascending insertion into a sorted list of timestamps (sorted(...) on
the dict keys in process_batch). -/
def insertAsc (n : Nat) : List Nat → List Nat
  | [] => [n]
  | x :: xs => if n ≤ x then n :: x :: xs else x :: insertAsc n xs

/-- sorted(self.pending_screenshots.keys()) in process_batch. -/
def sortedKeys (pending : List (Nat × String)) : List Nat :=
  (pending.map Prod.fst).foldr insertAsc []

/-- Accumulator for the per-item loop of process_batch: summaries built
so far, the current pending map, and the paths whose files were unlinked
(analyze_screenshot always unlinks in its finally block). -/
structure BatchLoopAcc (α : Type) where
  summaries : List α
  pending : List (Nat × String)
  deleted : List String

/-- One iteration of the loop in process_batch (batch.py lines 93-113):
look the path up by timestamp (a vanished key is logged and skipped), skip
the item entirely when its file no longer exists (it is not removed from
pending and nothing is unlinked), otherwise analyze it (appending the
summary when analysis succeeds), unlink the file, and delete the entry
from pending. -/
def processItem (fileExists : String → Bool) (analyze : Nat → String → Option α)
    (acc : BatchLoopAcc α) (t : Nat) : BatchLoopAcc α :=
  match acc.pending.find? (fun q => q.1 == t) with
  | none => acc
  | some q =>
    if fileExists q.2 then
      { summaries :=
          match analyze t q.2 with
          | some s => acc.summaries ++ [s]
          | none => acc.summaries
        pending := acc.pending.filter (fun r => !(r.1 == t))
        deleted := acc.deleted ++ [q.2] }
    else
      acc

/-- BatchProcessor.process_batch (batch.py lines 81-118).  An empty queue
returns immediately (before the try block, so last_batch_time is not
touched).  Otherwise the batch is the first batch_size timestamps in
ascending order; with shutdown requested the loop breaks at once; the
finally block stamps last_batch_time with the current time.  Returns the
summaries, the new state, and the unlinked paths. -/
def processBatch (now : Nat) (fileExists : String → Bool)
    (analyze : Nat → String → Option α) (st : BatchState) :
    List α × BatchState × List String :=
  if st.pending.isEmpty then
    ([], st, [])
  else
    let keys := if st.shutdownRequested then [] else (sortedKeys st.pending).take st.batchSize
    let acc := keys.foldl (processItem fileExists analyze) ⟨[], st.pending, []⟩
    (acc.summaries, { st with pending := acc.pending, lastBatchTime := some now }, acc.deleted)

/-- BatchProcessor.add_screenshot (batch.py lines 61-67): insert the
capture keyed by the current time (the file-missing failure path raises
and is outside this state update). -/
def addScreenshot (now : Nat) (path : String) (st : BatchState) : BatchState :=
  { st with pending := st.pending ++ [(now, path)] }

/-- BatchProcessor.cleanup (batch.py lines 295-318): request shutdown,
unlink every pending screenshot and clear the pending map.  Returns the
new state and the unlinked paths. -/
def batchCleanup (st : BatchState) : BatchState × List String :=
  ({ st with shutdownRequested := true, pending := [] }, st.pending.map Prod.snd)

/-- Repeated process_batch calls at the given times (same oracles),
keeping only the state. -/
def processMany (fileExists : String → Bool) (analyze : Nat → String → Option α)
    (st : BatchState) : List Nat → BatchState
  | [] => st
  | n :: ns => processMany fileExists analyze (processBatch n fileExists analyze st).2.1 ns

/-- The readiness predicate exactly as the specification words it:
queued items at least batchSize, or time since the last drain at least
batchIntervalSeconds (no startup special case).  Kept separate from
isBatchReady, which is translated from the source, so the two can be
compared. -/
def claimIsReady (now : Nat) (st : BatchState) : Bool :=
  decide (st.batchSize ≤ st.pending.length) ||
    match st.lastBatchTime with
    | some t => decide (st.batchInterval ≤ now - t)
    | none => false

/-! ## Persistence store: manager_mccode/services/database.py

The SQLite tables created by MIGRATIONS are lists of row records inside a
Db state; AUTOINCREMENT ids come from a nextId counter.  A committed
transaction is a pure state update (store_summary's BEGIN/COMMIT wraps
the snapshot, activity and focus-state inserts; rollback on failure means
a failing write leaves the state unchanged, which is inherent in the
functional embedding). -/

/-- A row of activity_snapshots.  window_title, active_app and batch_id
are nullable and never written by store_summary; focus_score is a
nullable FLOAT column. -/
structure SnapshotRow where
  id : Nat
  timestamp : Nat
  summary : String
  window_title : Option String
  active_app : Option String
  focus_score : Option ℚ
deriving Repr, DecidableEq

/-- A row of the activities table. -/
structure ActivityRow where
  snapshot_id : Nat
  name : String
  category : String
  purpose : String
  attention_level : ℚ
  context_switches : String
  workspace_organization : String
deriving Repr, DecidableEq

/-- A row of the focus_states table. -/
structure FocusStateRow where
  snapshot_id : Nat
  state_type : String
  confidence : ℚ
deriving Repr, DecidableEq

/-- A row of the task_segments table as written by _update_task_segments
(the context JSON blob is not modelled). -/
structure TaskSegment where
  start_time : Nat
  end_time : Option Nat
  task_name : String
  category : String
deriving Repr, DecidableEq

/-- The database state. -/
structure Db where
  snapshots : List SnapshotRow
  activities : List ActivityRow
  focusStates : List FocusStateRow
  taskSegments : List TaskSegment
  nextId : Nat
deriving Repr, DecidableEq

/-- A freshly initialized database. -/
def emptyDb : Db :=
  { snapshots := [], activities := [], focusStates := [], taskSegments := [], nextId := 0 }

/-- DatabaseManager.store_summary (database.py lines 448-509), the
committed transaction: insert the snapshot row with the hardcoded 0.0
default focus score, one activities row per activity, and a focus_states
row when the summary has a context.  Returns the new state and the new
snapshot id. -/
def storeSummary (db : Db) (s : ScreenSummary) : Db × Nat :=
  let id := db.nextId
  let snap : SnapshotRow :=
    { id := id, timestamp := s.timestamp, summary := s.summary
      window_title := none, active_app := none, focus_score := some 0 }
  let acts := s.activities.map (fun a =>
    ({ snapshot_id := id, name := a.name, category := a.category
       purpose := a.purpose
       attention_level := (a.focus_indicators.attention_level : ℚ)
       context_switches := a.focus_indicators.context_switches
       workspace_organization := a.focus_indicators.workspace_organization } : ActivityRow))
  let fstates :=
    match s.context with
    | some c => [({ snapshot_id := id, state_type := c.attention_state
                    confidence := c.confidence } : FocusStateRow)]
    | none => []
  ({ db with
      snapshots := db.snapshots ++ [snap]
      activities := db.activities ++ acts
      focusStates := db.focusStates ++ fstates
      nextId := id + 1 }, id)

/-- DatabaseManager._update_task_segments (database.py lines 523-554):
first set end_time on every open segment (end_time IS NULL) to the new
summary's timestamp, unconditionally, then insert a fresh open segment
with the context's primary task (or "unknown") and the first activity's
category (or "unknown"). -/
def updateTaskSegments (segs : List TaskSegment) (s : ScreenSummary) : List TaskSegment :=
  let closed := segs.map (fun seg =>
    if seg.end_time = none then { seg with end_time := some s.timestamp } else seg)
  closed ++ [{ start_time := s.timestamp, end_time := none
               task_name := match s.context with
                 | some c => c.primary_task
                 | none => "unknown"
               category := match s.activities with
                 | a :: _ => a.category
                 | [] => "unknown" }]

/-- Number of open segments (end_time IS NULL). -/
def countOpen (segs : List TaskSegment) : Nat :=
  (segs.filter (fun seg => seg.end_time = none)).length

/-- Python x or y on strings: y when x is empty (falsy), else x. -/
def pyOr (x y : String) : String :=
  if x = "" then y else x

/-- An activity as returned inside get_snapshots_between: name and
category defaulted to "unknown" when falsy, purpose to "", and the
COALESCEd indicator columns. -/
structure ActivityView where
  name : String
  category : String
  purpose : String
  attention_level : ℚ
  context_switches : String
  workspace_organization : String
deriving Repr, DecidableEq

/-- A snapshot dict as returned by get_snapshots_between. -/
structure SnapshotView where
  id : Nat
  timestamp : Nat
  summary : String
  window_title : String
  active_app : String
  focus_score : ℚ
  activities : List ActivityView
deriving Repr, DecidableEq

/-- Descending insertion by timestamp (ORDER BY timestamp DESC). -/
def insertDesc (r : SnapshotRow) : List SnapshotRow → List SnapshotRow
  | [] => [r]
  | x :: xs => if r.timestamp ≤ x.timestamp then x :: insertDesc r xs else r :: x :: xs

/-- Sort snapshot rows by timestamp descending. -/
def sortDesc (l : List SnapshotRow) : List SnapshotRow :=
  l.foldr insertDesc []

/-- The per-snapshot body of get_snapshots_between (database.py lines
735-773): the row fields with "or" defaults and COALESCE(focus_score,
0.0), plus the snapshot's activities with their defaults. -/
def snapshotView (db : Db) (r : SnapshotRow) : SnapshotView :=
  { id := r.id
    timestamp := r.timestamp
    summary := r.summary
    window_title := (r.window_title.getD "")
    active_app := (r.active_app.getD "")
    focus_score := r.focus_score.getD 0
    activities := (db.activities.filter (fun a => a.snapshot_id == r.id)).map (fun a =>
      { name := pyOr a.name "unknown"
        category := pyOr a.category "unknown"
        purpose := pyOr a.purpose ""
        attention_level := a.attention_level
        context_switches := a.context_switches
        workspace_organization := a.workspace_organization }) }

/-- DatabaseManager.get_snapshots_between (database.py lines 713-782),
the successful branch: snapshots with timestamp BETWEEN start AND finish
(inclusive), ordered by timestamp descending, each with its activities. -/
def getSnapshotsBetween (db : Db) (start finish : Nat) : List SnapshotView :=
  (sortDesc (db.snapshots.filter (fun r =>
    decide (start ≤ r.timestamp) && decide (r.timestamp ≤ finish)))).map (snapshotView db)

/-- get_snapshots_between with its enclosing try/except: any internal
failure (connection, query, malformed stored row) lands in the except
branch, which logs and returns the empty list. -/
def getSnapshotsBetweenSafe (db : Db) (outcome : Except String Unit)
    (start finish : Nat) : List SnapshotView :=
  match outcome with
  | .error _ => []
  | .ok _ => getSnapshotsBetween db start finish

/-- A row of the result of get_focus_states_between; confidence is
AVG(attention_level), NULL when the snapshot has no activities. -/
structure FocusStateView where
  id : Nat
  state_type : String
  confidence : Option ℚ
deriving Repr, DecidableEq

/-- AVG(a.attention_level) over the activities joined to one snapshot:
NULL for an empty group. -/
def avgAttention (db : Db) (sid : Nat) : Option ℚ :=
  let rows := db.activities.filter (fun a => a.snapshot_id == sid)
  match rows with
  | [] => none
  | _ => some ((rows.map (fun a => a.attention_level)).sum / rows.length)

/-- DatabaseManager.get_focus_states_between (database.py lines 810-836):
for every snapshot in the range, a state recomputed from the average
activity attention level (at least 70 focused, at most 45 scattered, else
neutral; a NULL average falls through the CASE to neutral), with that
average reported as the confidence.  The stored focus_states table is not
consulted. -/
def getFocusStatesBetween (db : Db) (start finish : Nat) : List FocusStateView :=
  (db.snapshots.filter (fun r =>
    decide (start ≤ r.timestamp) && decide (r.timestamp ≤ finish))).map (fun r =>
      match avgAttention db r.id with
      | none => { id := r.id, state_type := "neutral", confidence := none }
      | some v =>
        { id := r.id
          state_type := if 70 ≤ v then "focused" else if v ≤ 45 then "scattered" else "neutral"
          confidence := some v })

/-! ## The focus-score heuristic of the specification

DatabaseManager._calculate_focus_score (database.py lines 511-521) is an
unfinished stub: after checking that the summary has a context its body
is only the comment "Rest of the function...", and store_summary never
calls it.  The weighted heuristic therefore exists only in the
specification and is modelled from its words, to be compared with what
the write path actually stores. -/

/-- Modelled from the spec: the per-activity context-switch weight,
low 0.9, medium 0.6, high 0.3 (other strings are not assigned a weight by
the spec; 0 is used).  Missing from src: the body of
DatabaseManager._calculate_focus_score. -/
def specSwitchWeight : String → ℚ
  | "low" => 9/10
  | "medium" => 6/10
  | "high" => 3/10
  | _ => 0

/-- Modelled from the spec: the workspace-organization weight, organized
0.9, mixed 0.6, scattered 0.3.  Missing from src: the body of
DatabaseManager._calculate_focus_score. -/
def specOrgWeight : String → ℚ
  | "organized" => 9/10
  | "mixed" => 6/10
  | "scattered" => 3/10
  | _ => 0

/-- Modelled from the spec: the per-activity component
attentionLevel/100 * 0.5 + contextSwitchWeight * 0.3 +
organizationWeight * 0.2.  Missing from src: the body of
DatabaseManager._calculate_focus_score. -/
def specActivityComponent (a : Activity) : ℚ :=
  (a.focus_indicators.attention_level : ℚ) / 100 * (5/10) +
    specSwitchWeight a.focus_indicators.context_switches * (3/10) +
    specOrgWeight a.focus_indicators.workspace_organization * (2/10)

/-- Clamp to [0,1]. -/
def clamp01 (x : ℚ) : ℚ :=
  max 0 (min 1 x)

/-- Round to 2 decimals (half-up). -/
def round2 (x : ℚ) : ℚ :=
  ((x * 100 + 1/2 : ℚ).floor : ℚ) / 100

/-- Modelled from the spec: the final focus score, 0.4 * base +
0.6 * mean(per-activity components), clamped to [0,1] and rounded to 2
decimals; base alone when there are no activities.  The base is the value
drawn from the attention-state range and is passed as a parameter.
Missing from src: the body of DatabaseManager._calculate_focus_score. -/
def specFinalScore (base : ℚ) (s : ScreenSummary) : ℚ :=
  match s.activities with
  | [] => base
  | _ =>
    let mean := ((s.activities.map specActivityComponent).sum) / s.activities.length
    round2 (clamp01 ((4/10) * base + (6/10) * mean))

/-! ## Analysis gateway: manager_mccode/services/analyzer.py

The external service's reply is a free-form text; json.loads is outside
the embedding, so a reply is modelled as its raw text together with the
result of parsing that text: none when the text is not valid JSON,
otherwise the set of top-level field names of the object.  The payload
mapping (_create_summary) is not at issue in the verified claims and is
abstracted by a builder oracle. -/

/-- A reply from the image-understanding service: the raw text and the
outcome of JSON-parsing it (none = json.loads raises). -/
structure ServiceResponse where
  text : String
  parsed : Option (List String)
deriving Repr, DecidableEq

/-- GeminiAnalyzer._parse_response (analyzer.py lines 97-114), after the
code-fence stripping: json.loads failure raises ValueError("Failed to
parse JSON response"), an object missing any of summary/activities/
context raises ValueError("Missing required fields"), otherwise the
parsed object is returned. -/
def parseResponse (parsed : Option (List String)) : Except String (List String) :=
  match parsed with
  | none => .error "Failed to parse JSON response"
  | some fields =>
    let missing := (["summary", "activities", "context"].filter (fun f => !fields.contains f))
    if missing.isEmpty then .ok fields else .error "Missing required fields"

/-- GeminiAnalyzer._create_error_summary (analyzer.py lines 134-156): a
placeholder ScreenSummary with a single "Error" activity and an error
context, returned in place of a real analysis. -/
def createErrorSummary (now : Nat) (message : String) : ScreenSummary :=
  { timestamp := now
    summary := "Error analyzing screenshot: " ++ message
    activities := [{ name := "Error", category := "error", purpose := "error"
                     focus_indicators := { attention_level := 0
                                           context_switches := "unknown"
                                           workspace_organization := "unknown" } }]
    context := some { primary_task := "error", attention_state := "unknown"
                      environment := "unknown", confidence := 1/2 } }

/-- GeminiAnalyzer.analyze_image (analyzer.py lines 29-95), response
handling: an empty response text raises ValueError("Empty response from
Gemini"); then _parse_response runs and _create_summary maps the parsed
object (abstracted by the build oracle).  Every exception is caught and
turned into _create_error_summary(message) — analyze_image never
propagates the error. -/
def analyzeImage (now : Nat) (build : List String → ScreenSummary)
    (resp : ServiceResponse) : ScreenSummary :=
  if resp.text = "" then
    createErrorSummary now "Empty response from Gemini"
  else
    match parseResponse resp.parsed with
    | .ok fields => build fields
    | .error msg => createErrorSummary now msg

/-! ## Service loops: runner.py and main.py

A loop execution is abstracted as the timed sequence of its iteration
outcomes: each iteration either completes successfully or raises an
error.  The embedding runs the error-accounting state machine over that
trace and reports whether the fatal-shutdown ceiling was reached. -/

/-- The outcome of one main-loop iteration. -/
inductive IterationResult where
  | success
  | failure
deriving Repr, DecidableEq

/-- ServiceRunner.run (runner.py lines 113-172) error accounting, run
over a timed trace (the timestamps are carried to show they are never
consulted): a successful iteration resets error_count to 0; an error
increments it, and reaching MAX_ERRORS (3) triggers shutdown and breaks
the loop.  There is no time-based reset.  Returns true when the fatal
ceiling was reached. -/
def runnerRun : List (Nat × IterationResult) → Nat → Bool
  | [], _ => false
  | (_, .success) :: rest, _ => runnerRun rest 0
  | (_, .failure) :: rest, count =>
    if 3 ≤ count + 1 then true else runnerRun rest (count + 1)

/-- ServiceRunner.run from the initial state (error_count = 0). -/
def runnerShutdown (trace : List (Nat × IterationResult)) : Bool :=
  runnerRun trace 0

/-- ManagerMcCode.run (main.py lines 70-137) error accounting: at the top
of each iteration the count is reset to 0 when more than
ERROR_RESET_INTERVAL (300 s) has passed since the last error; an error
increments the count and stamps last_error_time, and reaching MAX_ERRORS
(5) stops the loop; a successful iteration does not reset the count.
Returns true when the ceiling was reached. -/
def mainRun : List (Nat × IterationResult) → Nat → Option Nat → Bool
  | [], _, _ => false
  | (now, res) :: rest, count, lastError =>
    let count :=
      match lastError with
      | some te => if 300 < now - te then 0 else count
      | none => count
    match res with
    | .success => mainRun rest count lastError
    | .failure =>
      if 5 ≤ count + 1 then true else mainRun rest (count + 1) (some now)

/-- ManagerMcCode.run from the initial state. -/
def mainShutdown (trace : List (Nat × IterationResult)) : Bool :=
  mainRun trace 0 none

/-- Three adjacent failures somewhere in a trace: the property that
actually characterizes the runner's fatal shutdown. -/
def hasTripleFailure (trace : List (Nat × IterationResult)) : Prop :=
  ∃ (pre post : List (Nat × IterationResult)) (t₁ t₂ t₃ : Nat),
    trace = pre ++ [(t₁, .failure), (t₂, .failure), (t₃, .failure)] ++ post

/-- The Python dict invariant on the pending map: timestamps (keys) are
distinct. -/
def NodupKeys (l : List (Nat × String)) : Prop :=
  (l.map Prod.fst).Nodup

/-- Length of the failure prefix of a trace. -/
def leadFails : List (Nat × IterationResult) → Nat
  | (_, .failure) :: rest => leadFails rest + 1
  | _ => 0

/-- A concrete fully-focused summary: one activity at attention 100 with
low switches and an organized workspace, in a focused context. -/
def c1Summary : ScreenSummary :=
  { timestamp := 50
    summary := "deep work in the editor"
    activities := [{ name := "vscode", category := "coding", purpose := "writing code"
                     focus_indicators := { attention_level := 100
                                           context_switches := "low"
                                           workspace_organization := "organized" } }]
    context := some { primary_task := "coding", attention_state := "focused"
                      environment := "desk", confidence := 9/10 } }

/-- A concrete summary whose stored focus state (focused, 0.9) disagrees
with what the read path recomputes from its single attention-30
activity. -/
def c2Summary : ScreenSummary :=
  { timestamp := 50
    summary := "drafting the report"
    activities := [{ name := "chrome", category := "research", purpose := "reading docs"
                     focus_indicators := { attention_level := 30
                                           context_switches := "low"
                                           workspace_organization := "organized" } }]
    context := some { primary_task := "writing", attention_state := "focused"
                      environment := "desk", confidence := 9/10 } }

/-- Timestamp of the last activity of a list, with a default for the
empty list. -/
def lastTs : List TimedActivity → Nat → Nat
  | [], d => d
  | a :: rest, _ => lastTs rest a.timestamp

/-! ## Theorems -/

/-- C6: folding an activity into the current focus session sets end_time
to the activity's timestamp, recomputes duration_minutes as end_time
minus start_time in whole minutes, updates the attention score by the
exact recurrence (old + new) / 2, and increments the switch counter
exactly when the activity's context-switch indicator is "high".  The last
conjuncts witness that the recurrence is not a batch mean: grouping two
activities with attention 100 and 40 leaves the session at
((0 + 100)/2 + 40)/2 = 45, while the batch mean is 70. -/
theorem add_activity_updates_session :
    (∀ (s : FocusSession) (a : TimedActivity),
      (s.add_activity a).end_time = some a.timestamp ∧
      (s.add_activity a).duration_minutes = (a.timestamp - s.start_time) / 60 ∧
      (s.add_activity a).attention_score
        = (s.attention_score + (a.focus_indicators.attention_level : ℚ)) / 2 ∧
      (s.add_activity a).context_switches
        = (if a.focus_indicators.context_switches = "high" then
            s.context_switches + 1 else s.context_switches) ∧
      (s.add_activity a).start_time = s.start_time ∧
      (s.add_activity a).activity_type = s.activity_type) ∧
    ((groupIntoSessions
        [⟨"work", 0, ⟨100, "low", "organized"⟩⟩,
         ⟨"work", 60, ⟨40, "low", "organized"⟩⟩]).map
      (fun s => s.attention_score) = [45] ∧
      ((100 : ℚ) + 40) / 2 = 70 ∧ (45 : ℚ) ≠ 70) := by
  constructor
  · intro s a
    refine ⟨rfl, rfl, rfl, ?_, rfl, rfl⟩
    by_cases h : a.focus_indicators.context_switches = "high" <;>
      simp [FocusSession.add_activity, h]
  · refine ⟨?_, by norm_num, by norm_num⟩
    norm_num [groupIntoSessions, groupStep, newSession, FocusSession.add_activity]
    rfl

/-- C3 counterexample: pushing three snapshots with primary tasks
writing, writing, coding through _update_task_segments starting from no
segments yields three task segments, not two — the second writing
snapshot already closes the first segment (end_time 20) even though its
primary task matches the open segment's. -/
theorem three_snapshots_make_three_segments :
    (updateTaskSegments
      (updateTaskSegments
        (updateTaskSegments []
          ⟨10, "s1", [], some ⟨"writing", "focused", "desk", 1/2⟩⟩)
        ⟨20, "s2", [], some ⟨"writing", "focused", "desk", 1/2⟩⟩)
      ⟨30, "s3", [], some ⟨"coding", "focused", "desk", 1/2⟩⟩)
    = [⟨10, some 20, "writing", "unknown"⟩,
       ⟨20, some 30, "writing", "unknown"⟩,
       ⟨30, none, "coding", "unknown"⟩] ∧
    ¬ ((updateTaskSegments
      (updateTaskSegments
        (updateTaskSegments []
          ⟨10, "s1", [], some ⟨"writing", "focused", "desk", 1/2⟩⟩)
        ⟨20, "s2", [], some ⟨"writing", "focused", "desk", 1/2⟩⟩)
      ⟨30, "s3", [], some ⟨"coding", "focused", "desk", 1/2⟩⟩).length = 2) := by
  constructor
  · decide
  · decide

/-- Closing pass of _update_task_segments: no mapped segment stays
open. -/
theorem closed_segments_not_open (segs : List TaskSegment) (t : Nat) :
    (segs.map (fun seg =>
      if seg.end_time = none then { seg with end_time := some t } else seg)).filter
      (fun seg => seg.end_time = none) = [] := by
  induction segs with
  | nil => rfl
  | cons x xs ih =>
    cases h : x.end_time with
    | none => simpa [h] using ih
    | some y => simpa [h] using ih

/-- C3 amended: every call to _update_task_segments closes all open
segments at the new snapshot's timestamp regardless of whether the
primary task matches, and opens exactly one new segment, so exactly one
segment is open afterwards; and store_summary never touches
task_segments at all, so the plain store path creates no segments. -/
theorem update_task_segments_always_opens_new :
    (∀ (segs : List TaskSegment) (s : ScreenSummary),
      countOpen (updateTaskSegments segs s) = 1) ∧
    (∀ (db : Db) (s : ScreenSummary),
      (storeSummary db s).1.taskSegments = db.taskSegments) := by
  constructor
  · intro segs s
    simp [countOpen, updateTaskSegments, List.filter_append, closed_segments_not_open]
  · intro db s
    rfl

/-- C10: get_snapshots_between never propagates an internal failure: the
except branch turns any error into the empty list, and a time range that
genuinely contains no snapshots also yields the empty list, so the two
are indistinguishable at the read interface. -/
theorem get_snapshots_between_swallows_errors :
    (∀ (db : Db) (e : String) (start finish : Nat),
      getSnapshotsBetweenSafe db (.error e) start finish = []) ∧
    (∀ (db : Db) (start finish : Nat),
      (∀ r ∈ db.snapshots, ¬ (start ≤ r.timestamp ∧ r.timestamp ≤ finish)) →
      getSnapshotsBetweenSafe db (.ok ()) start finish = []) := by
  constructor
  · intro db e start finish
    rfl
  · intro db start finish h
    have hf : db.snapshots.filter (fun r =>
        decide (start ≤ r.timestamp) && decide (r.timestamp ≤ finish)) = [] := by
      rw [List.filter_eq_nil_iff]
      intro r hr
      have := h r hr
      simp only [Bool.and_eq_true, decide_eq_true_eq]
      exact fun hc => this ⟨hc.1, hc.2⟩
    simp [getSnapshotsBetweenSafe, getSnapshotsBetween, hf, sortDesc]

/-- C10 witness: a database whose one snapshot (timestamp 5) lies outside
the queried range 10..20 reads back as empty both on the error path and
on the success path. -/
theorem get_snapshots_between_swallows_errors_witness :
    getSnapshotsBetweenSafe
      { emptyDb with snapshots := [⟨0, 5, "s", none, none, some 0⟩], nextId := 1 }
      (.error "connection failed") 10 20 = [] ∧
    getSnapshotsBetweenSafe
      { emptyDb with snapshots := [⟨0, 5, "s", none, none, some 0⟩], nextId := 1 }
      (.ok ()) 10 20 = [] :=
  ⟨get_snapshots_between_swallows_errors.1 _ _ _ _,
   get_snapshots_between_swallows_errors.2 _ _ _ (by decide)⟩

/-- C5 counterexample: in the startup state (no batch has ever run,
last_batch_time is None) a single queued capture with batchSize 2 makes
is_batch_ready true, while the specification's readiness predicate (size
reached or interval elapsed since the last drain) is false — so readiness
is not "exactly" the spec's disjunction over every queue state. -/
theorem is_batch_ready_startup_counterexample :
    isBatchReady 1 ⟨[(1, "a.png")], none, 2, 120, false⟩ = true ∧
    claimIsReady 1 ⟨[(1, "a.png")], none, 2, 120, false⟩ = false := by
  decide

/-- C5 amended: once a batch has run (last_batch_time set), is_batch_ready
is exactly "queued ≥ batchSize or elapsed ≥ batchInterval"; before any
batch it is "queue non-empty".  With batchSize 2, interval 120 and a
recent drain at t=100: not ready after the 1st enqueue, ready after the
2nd, the batch drains the 2 oldest of the 3 queued captures, and the 3rd
stays queued (not ready at t=103 or t=222) until 120 s have elapsed
(t=223) or a further capture arrives. -/
theorem is_batch_ready_characterization :
    (∀ (now : Nat) (st : BatchState) (t : Nat), st.lastBatchTime = some t →
      (isBatchReady now st = true ↔
        (st.batchSize ≤ st.pending.length ∨ st.batchInterval ≤ now - t))) ∧
    (∀ (now : Nat) (st : BatchState), st.lastBatchTime = none →
      (isBatchReady now st = true ↔ st.pending ≠ [])) ∧
    (isBatchReady 101 (addScreenshot 101 "a.png" ⟨[], some 100, 2, 120, false⟩) = false ∧
     isBatchReady 102 (addScreenshot 102 "b.png"
       (addScreenshot 101 "a.png" ⟨[], some 100, 2, 120, false⟩)) = true ∧
     processBatch 103 (fun _ => true) (fun t p => some (t, p))
       (addScreenshot 103 "c.png" (addScreenshot 102 "b.png"
         (addScreenshot 101 "a.png" ⟨[], some 100, 2, 120, false⟩)))
       = ([(101, "a.png"), (102, "b.png")],
          ⟨[(103, "c.png")], some 103, 2, 120, false⟩, ["a.png", "b.png"]) ∧
     isBatchReady 103 (⟨[(103, "c.png")], some 103, 2, 120, false⟩ : BatchState) = false ∧
     isBatchReady 222 (⟨[(103, "c.png")], some 103, 2, 120, false⟩ : BatchState) = false ∧
     isBatchReady 223 (⟨[(103, "c.png")], some 103, 2, 120, false⟩ : BatchState) = true ∧
     isBatchReady 103 (addScreenshot 103 "d.png"
       (⟨[(103, "c.png")], some 103, 2, 120, false⟩ : BatchState)) = true) := by
  refine ⟨?_, ?_, by decide⟩
  · intro now st t h
    simp [isBatchReady, h]
  · intro now st h
    simp [isBatchReady, h, List.isEmpty_iff]

/-- C5 witness: the two readiness characterizations applied at concrete
states with a set and an unset last_batch_time. -/
theorem is_batch_ready_characterization_witness :
    (isBatchReady 150 (⟨[(103, "x.png")], some 100, 2, 120, false⟩ : BatchState) = true ↔
      (2 ≤ 1 ∨ 120 ≤ 150 - 100)) ∧
    (isBatchReady 5 (⟨[], none, 2, 120, false⟩ : BatchState) = true ↔
      ([] : List (Nat × String)) ≠ []) :=
  ⟨is_batch_ready_characterization.1 150 _ 100 rfl,
   is_batch_ready_characterization.2.1 5 _ rfl⟩

/-! ### C9: a drained item whose file vanished stays pending -/

/-- With distinct keys, two pending entries sharing a key coincide. -/
theorem nodupKeys_key_eq {l : List (Nat × String)} (h : NodupKeys l)
    {a b : Nat × String} (ha : a ∈ l) (hb : b ∈ l) (hk : a.1 = b.1) : a = b :=
  List.inj_on_of_nodup_map h ha hb hk

/-- One loop iteration of process_batch keeps the key invariant, keeps a
pending entry whose file is missing, and only ever unlinks files that
exist. -/
theorem processItem_keeps {α : Type} (fE : String → Bool) (an : Nat → String → Option α)
    (t : Nat) (p : String) (acc : BatchLoopAcc α) (t' : Nat)
    (hnd : NodupKeys acc.pending) (hmem : (t, p) ∈ acc.pending) (hfe : fE p = false)
    (hdel : ∀ q ∈ acc.deleted, fE q = true) :
    NodupKeys (processItem fE an acc t').pending ∧
      (t, p) ∈ (processItem fE an acc t').pending ∧
      (∀ q ∈ (processItem fE an acc t').deleted, fE q = true) := by
  unfold processItem
  cases hfind : acc.pending.find? (fun q => q.1 == t') with
  | none => exact ⟨hnd, hmem, hdel⟩
  | some q =>
    have hqmem : q ∈ acc.pending := List.mem_of_find?_eq_some hfind
    have hqkey : q.1 = t' := by
      have := List.find?_some hfind
      simpa using this
    by_cases hq : fE q.2 = true
    · have htne : t ≠ t' := by
        intro hcontra
        have : (t, p) = q := nodupKeys_key_eq hnd hmem hqmem (by simp [hqkey, hcontra])
        rw [← this] at hq
        simp [hfe] at hq
      simp only [hq, if_true]
      refine ⟨?_, ?_, ?_⟩
      · exact hnd.sublist ((List.filter_sublist _).map _)
      · exact List.mem_filter.mpr ⟨hmem, by simpa using htne⟩
      · intro r hr
        rcases List.mem_append.mp hr with h1 | h1
        · exact hdel r h1
        · simp only [List.mem_singleton] at h1
          rw [h1]
          exact hq
    · simp only [Bool.not_eq_true] at hq
      simp only [hq, Bool.false_eq_true, if_false]
      exact ⟨hnd, hmem, hdel⟩

/-- The whole per-batch loop keeps the key invariant, keeps a pending
entry whose file is missing, and unlinks only existing files. -/
theorem foldl_processItem_keeps {α : Type} (fE : String → Bool)
    (an : Nat → String → Option α) (t : Nat) (p : String) :
    ∀ (keys : List Nat) (acc : BatchLoopAcc α),
      NodupKeys acc.pending → (t, p) ∈ acc.pending → fE p = false →
      (∀ q ∈ acc.deleted, fE q = true) →
      NodupKeys (keys.foldl (processItem fE an) acc).pending ∧
        (t, p) ∈ (keys.foldl (processItem fE an) acc).pending ∧
        (∀ q ∈ (keys.foldl (processItem fE an) acc).deleted, fE q = true) := by
  intro keys
  induction keys with
  | nil => intro acc h1 h2 h3 h4; exact ⟨h1, h2, h4⟩
  | cons k ks ih =>
    intro acc h1 h2 h3 h4
    have step := processItem_keeps fE an t p acc k h1 h2 h3 h4
    exact ih _ step.1 step.2.1 h3 step.2.2

/-- process_batch keeps the key invariant, keeps a pending entry whose
file is missing, and never unlinks that file. -/
theorem processBatch_keeps {α : Type} (fE : String → Bool)
    (an : Nat → String → Option α) (now t : Nat) (p : String) (st : BatchState)
    (hnd : NodupKeys st.pending) (hmem : (t, p) ∈ st.pending) (hfe : fE p = false) :
    NodupKeys (processBatch now fE an st).2.1.pending ∧
      (t, p) ∈ (processBatch now fE an st).2.1.pending ∧
      p ∉ (processBatch now fE an st).2.2 := by
  unfold processBatch
  by_cases he : st.pending.isEmpty
  · simp only [he, if_true]
    exact ⟨hnd, hmem, by simp⟩
  · simp only [he, Bool.false_eq_true, if_false]
    have h := foldl_processItem_keeps fE an t p
      (if st.shutdownRequested then [] else (sortedKeys st.pending).take st.batchSize)
      ⟨[], st.pending, []⟩ hnd hmem hfe (by simp)
    refine ⟨h.1, h.2.1, ?_⟩
    intro hcontra
    have := h.2.2 p hcontra
    rw [hfe] at this
    exact Bool.false_ne_true this

/-- Iterated process_batch calls keep a missing-file entry pending. -/
theorem processMany_keeps {α : Type} (fE : String → Bool)
    (an : Nat → String → Option α) (t : Nat) (p : String) :
    ∀ (times : List Nat) (st : BatchState),
      NodupKeys st.pending → (t, p) ∈ st.pending → fE p = false →
      (t, p) ∈ (processMany fE an st times).pending := by
  intro times
  induction times with
  | nil => intro st _ h2 _; exact h2
  | cons n ns ih =>
    intro st h1 h2 h3
    have step := processBatch_keeps fE an n t p st h1 h2 h3
    exact ih _ step.1 step.2.1 h3

/-- C9: a drained batch item whose screenshot file no longer exists is
skipped: it is not removed from the pending queue, its path is not
unlinked, it survives any number of subsequent process_batch calls, and
only the shutdown cleanup clears the queue (unlinking whatever was still
pending). -/
theorem missing_file_item_stays_pending :
    (∀ (α : Type) (fE : String → Bool) (an : Nat → String → Option α)
      (now t : Nat) (p : String) (st : BatchState),
      NodupKeys st.pending → (t, p) ∈ st.pending → fE p = false →
      ((t, p) ∈ (processBatch now fE an st).2.1.pending ∧
        p ∉ (processBatch now fE an st).2.2)) ∧
    (∀ (α : Type) (fE : String → Bool) (an : Nat → String → Option α)
      (times : List Nat) (t : Nat) (p : String) (st : BatchState),
      NodupKeys st.pending → (t, p) ∈ st.pending → fE p = false →
      (t, p) ∈ (processMany fE an st times).pending) ∧
    (∀ st : BatchState, (batchCleanup st).1.pending = [] ∧
      (batchCleanup st).2 = st.pending.map Prod.snd) := by
  refine ⟨?_, ?_, ?_⟩
  · intro α fE an now t p st h1 h2 h3
    have h := processBatch_keeps fE an now t p st h1 h2 h3
    exact ⟨h.2.1, h.2.2⟩
  · intro α fE an times t p st h1 h2 h3
    exact processMany_keeps fE an t p times st h1 h2 h3
  · intro st
    exact ⟨rfl, rfl⟩

/-- C9 witness: a queue holding one capture whose file is gone still
holds it after two batch passes, and cleanup clears the queue. -/
theorem missing_file_item_stays_pending_witness :
    ((1, "gone.png") ∈ (processBatch 50 (fun _ => false) (fun _ _ => (none : Option Nat))
        ⟨[(1, "gone.png")], some 0, 2, 120, false⟩).2.1.pending ∧
      "gone.png" ∉ (processBatch 50 (fun _ => false) (fun _ _ => (none : Option Nat))
        ⟨[(1, "gone.png")], some 0, 2, 120, false⟩).2.2) ∧
    (1, "gone.png") ∈ (processMany (fun _ => false) (fun _ _ => (none : Option Nat))
      ⟨[(1, "gone.png")], some 0, 2, 120, false⟩ [50, 100]).pending ∧
    (batchCleanup ⟨[(1, "gone.png")], some 0, 2, 120, false⟩).1.pending = [] :=
  ⟨missing_file_item_stays_pending.1 Nat _ _ 50 1 "gone.png" _
      (by unfold NodupKeys; decide) (by decide) rfl,
   missing_file_item_stays_pending.2.1 Nat _ _ [50, 100] 1 "gone.png" _
      (by unfold NodupKeys; decide) (by decide) rfl,
   (missing_file_item_stays_pending.2.2 _).1⟩

/-! ### C8: the fatal-error ceiling of the service loops -/

/-- C8 counterexample: in ServiceRunner.run three consecutive errors shut
the service down even when they are 600 s (twice the claimed 5-minute
reset window) apart — there is no time-based reset; and in
ManagerMcCode.run (main.py) three consecutive errors 10 s apart do not
shut anything down, because that loop's ceiling is 5. -/
theorem error_ceiling_counterexample :
    runnerShutdown [(0, .failure), (600, .failure), (1200, .failure)] = true ∧
    mainShutdown [(0, .failure), (10, .failure), (20, .failure)] = false := by
  decide

/-- A trace with at least three leading failures starts with three
adjacent failures. -/
theorem hasTriple_of_three_leadFails :
    ∀ trace : List (Nat × IterationResult), 3 ≤ leadFails trace → hasTripleFailure trace := by
  intro trace h
  match trace with
  | [] => simp [leadFails] at h
  | (t₁, .success) :: rest => simp [leadFails] at h
  | (t₁, .failure) :: rest =>
    match rest with
    | [] => simp [leadFails] at h
    | (t₂, .success) :: rest₂ => simp [leadFails] at h
    | (t₂, .failure) :: rest₂ =>
      match rest₂ with
      | [] => simp [leadFails] at h
      | (t₃, .success) :: rest₃ => simp [leadFails] at h
      | (t₃, .failure) :: rest₃ => exact ⟨[], rest₃, t₁, t₂, t₃, rfl⟩

/-- Prepending an iteration preserves three-adjacent-failures. -/
theorem hasTriple_cons (x : Nat × IterationResult)
    {trace : List (Nat × IterationResult)} (h : hasTripleFailure trace) :
    hasTripleFailure (x :: trace) := by
  obtain ⟨pre, post, t₁, t₂, t₃, rfl⟩ := h
  exact ⟨x :: pre, post, t₁, t₂, t₃, rfl⟩

/-- Any run of ServiceRunner.run over a trace containing three adjacent
failures reaches the ceiling, from any starting error count. -/
theorem runnerRun_true_of_triple :
    ∀ (pre post : List (Nat × IterationResult)) (t₁ t₂ t₃ : Nat) (c : Nat),
      runnerRun (pre ++ [(t₁, .failure), (t₂, .failure), (t₃, .failure)] ++ post) c = true := by
  intro pre
  induction pre with
  | nil =>
    intro post t₁ t₂ t₃ c
    simp only [List.nil_append, runnerRun]
    split_ifs with h1 h2 h3 <;> first | rfl | omega
  | cons x pre ih =>
    intro post t₁ t₂ t₃ c
    match x with
    | (t, .success) => simpa [runnerRun] using ih post t₁ t₂ t₃ 0
    | (t, .failure) =>
      simp only [List.cons_append, runnerRun]
      split_ifs with h1
      · rfl
      · exact ih post t₁ t₂ t₃ (c + 1)

/-- A run that reaches the ceiling either saw three adjacent failures or
spent its starting credit on a long enough failure prefix. -/
theorem runnerRun_true_implies :
    ∀ (trace : List (Nat × IterationResult)) (c : Nat), c ≤ 2 →
      runnerRun trace c = true → hasTripleFailure trace ∨ 3 ≤ c + leadFails trace := by
  intro trace
  induction trace with
  | nil => intro c _ h; simp [runnerRun] at h
  | cons x rest ih =>
    intro c hc h
    match x with
    | (t, .success) =>
      simp only [runnerRun] at h
      rcases ih 0 (by omega) h with h1 | h1
      · exact Or.inl (hasTriple_cons _ h1)
      · exact Or.inl (hasTriple_cons _ (hasTriple_of_three_leadFails rest (by omega)))
    | (t, .failure) =>
      simp only [runnerRun] at h
      by_cases h1 : 3 ≤ c + 1
      · right
        simp [leadFails]
        omega
      · rw [if_neg h1] at h
        rcases ih (c + 1) (by omega) h with h2 | h2
        · exact Or.inl (hasTriple_cons _ h2)
        · right
          simp only [leadFails]
          omega

/-- C8 amended: ServiceRunner.run escalates to a fatal shutdown exactly
when the trace contains three consecutive loop-level errors with no
successful iteration between them, regardless of how far apart in time
they are; a successful iteration resets the count and there is no
time-based reset window (the 5-minute reset window, with a ceiling of
five, exists only in the legacy ManagerMcCode.run loop of main.py). -/
theorem runner_shutdown_iff_three_consecutive_errors :
    ∀ trace : List (Nat × IterationResult),
      runnerShutdown trace = true ↔ hasTripleFailure trace := by
  intro trace
  constructor
  · intro h
    rcases runnerRun_true_implies trace 0 (by omega) h with h1 | h1
    · exact h1
    · exact hasTriple_of_three_leadFails trace (by omega)
  · intro h
    obtain ⟨pre, post, t₁, t₂, t₃, rfl⟩ := h
    exact runnerRun_true_of_triple pre post t₁ t₂ t₃ 0

/-! ### C7: gateway behavior on empty / incomplete responses -/

/-- C7 counterexample: analyze_image does not raise on an empty response
or on a response missing required fields — it catches the internal
ValueError and returns the _create_error_summary placeholder (a
ScreenSummary whose single activity is named "Error"), so the gateway
does return a placeholder annotation result in place of the error. -/
theorem analyze_image_returns_placeholder :
    analyzeImage 0 (fun _ => ⟨0, "ok", [], none⟩) ⟨"", none⟩
      = createErrorSummary 0 "Empty response from Gemini" ∧
    analyzeImage 0 (fun _ => ⟨0, "ok", [], none⟩)
      ⟨"some reply text", some ["summary", "activities"]⟩
      = createErrorSummary 0 "Missing required fields" ∧
    ((createErrorSummary 0 "Empty response from Gemini").activities.map
      (fun a => a.name) = ["Error"]) := by
  refine ⟨rfl, ?_, rfl⟩
  rfl

/-- C7 amended: the parse layer (_parse_response) does raise — a
ValueError on unparsable JSON and on a response missing any of summary/
activities/context — but analyze_image catches every error and returns
the _create_error_summary placeholder with that message instead of
propagating it; an empty response likewise yields the placeholder. -/
theorem gateway_parse_errors_become_error_summary :
    (parseResponse none = .error "Failed to parse JSON response") ∧
    (∀ fields : List String,
      (fields.contains "summary" = false ∨ fields.contains "activities" = false ∨
        fields.contains "context" = false) →
      parseResponse (some fields) = .error "Missing required fields") ∧
    (∀ (now : Nat) (build : List String → ScreenSummary) (resp : ServiceResponse)
      (msg : String),
      resp.text ≠ "" → parseResponse resp.parsed = .error msg →
      analyzeImage now build resp = createErrorSummary now msg) ∧
    (∀ (now : Nat) (build : List String → ScreenSummary) (resp : ServiceResponse),
      resp.text = "" →
      analyzeImage now build resp = createErrorSummary now "Empty response from Gemini") := by
  refine ⟨rfl, ?_, ?_, ?_⟩
  · intro fields h
    rcases h with h | h | h <;>
      simp [parseResponse, List.filter, h] <;>
      cases h1 : fields.contains "summary" <;>
      cases h2 : fields.contains "activities" <;>
      cases h3 : fields.contains "context" <;>
      simp_all [List.filter]
  · intro now build resp msg h1 h2
    simp [analyzeImage, h1, h2]
  · intro now build resp h
    simp [analyzeImage, h]

/-- C7 witness: the parse-and-catch behavior at a concrete truncated
response carrying only the summary field, and at a concrete empty
response. -/
theorem gateway_parse_errors_become_error_summary_witness :
    parseResponse (some ["summary"]) = .error "Missing required fields" ∧
    analyzeImage 7 (fun _ => ⟨7, "ok", [], none⟩) ⟨"reply", some ["summary"]⟩
      = createErrorSummary 7 "Missing required fields" ∧
    analyzeImage 7 (fun _ => ⟨7, "ok", [], none⟩) ⟨"", none⟩
      = createErrorSummary 7 "Empty response from Gemini" :=
  ⟨gateway_parse_errors_become_error_summary.2.1 ["summary"] (by decide),
   gateway_parse_errors_become_error_summary.2.2.1 7 _ _ _ (by decide)
     (gateway_parse_errors_become_error_summary.2.1 ["summary"] (by decide)),
   gateway_parse_errors_become_error_summary.2.2.2 7 _ _ rfl⟩

/-! ### C1: the stored focus score versus the specified heuristic -/

/-- The per-activity component of c1Summary's single activity is 0.95. -/
theorem c1_component_value :
    specActivityComponent
      { name := "vscode", category := "coding", purpose := "writing code"
        focus_indicators := { attention_level := 100, context_switches := "low"
                              workspace_organization := "organized" } } = 95/100 := by
  simp [specActivityComponent, specSwitchWeight, specOrgWeight]
  norm_num

/-- C1: store_summary writes the hardcoded default 0.0 as the focus
score of every snapshot it stores (the weighted heuristic is never
invoked — _calculate_focus_score is an unfinished stub), while the
specified heuristic on the fully-focused c1Summary is at least 0.91 for
every base drawn from the focused range [0.85, 1], hence never 0. -/
theorem stored_focus_score_is_default_zero :
    (∀ (db : Db) (s : ScreenSummary),
      (storeSummary db s).1.snapshots.map (fun r => r.focus_score)
        = db.snapshots.map (fun r => r.focus_score) ++ [some 0]) ∧
    (∀ base : ℚ, 85/100 ≤ base → base ≤ 1 →
      91/100 ≤ specFinalScore base c1Summary ∧ specFinalScore base c1Summary ≠ 0) := by
  constructor
  · intro db s
    simp [storeSummary]
  · intro base h1 h2
    have hform : specFinalScore base c1Summary
        = round2 (clamp01 ((4/10) * base + (6/10) * (95/100))) := by
      simp [specFinalScore, c1Summary, c1_component_value]
    have hlo : 91/100 ≤ (4/10) * base + (6/10) * (95/100 : ℚ) := by linarith
    have hhi : (4/10) * base + (6/10) * (95/100 : ℚ) ≤ 1 := by linarith
    have hclamp : clamp01 ((4/10) * base + (6/10) * (95/100))
        = (4/10) * base + (6/10) * (95/100 : ℚ) := by
      unfold clamp01
      rw [min_eq_right hhi, max_eq_right (by linarith)]
    have hfloor : (91 : ℤ) ≤ (((4/10) * base + (6/10) * (95/100 : ℚ)) * 100 + 1/2).floor := by
      rw [Rat.le_floor]
      push_cast
      linarith
    have hr : 91/100 ≤ round2 ((4/10) * base + (6/10) * (95/100 : ℚ)) := by
      unfold round2
      have : (91 : ℚ) ≤ ((((4/10) * base + (6/10) * (95/100 : ℚ)) * 100 + 1/2).floor : ℚ) := by
        exact_mod_cast hfloor
      linarith
    rw [hform, hclamp]
    exact ⟨hr, by intro hzero; rw [hzero] at hr; norm_num at hr⟩

/-- C1 witness: the preceding theorem applied to a store over the empty
database and to the midpoint base 0.9 of the focused range. -/
theorem stored_focus_score_is_default_zero_witness :
    (storeSummary emptyDb c1Summary).1.snapshots.map (fun r => r.focus_score) = [some 0] ∧
    (91/100 ≤ specFinalScore (9/10) c1Summary ∧ specFinalScore (9/10) c1Summary ≠ 0) :=
  ⟨by simpa using stored_focus_score_is_default_zero.1 emptyDb c1Summary,
   stored_focus_score_is_default_zero.2 (9/10) (by norm_num) (by norm_num)⟩

/-! ### C2: the store/read round trip -/

/-- C2 counterexample: store_summary writes the focus state (focused,
confidence 0.9) of c2Summary, but reading the spanning range back through
get_focus_states_between returns (scattered, confidence 30) — the read
path recomputes the state from the average activity attention level and
ignores the stored focus_states row, so the focus-state fields do not
round-trip. -/
theorem focus_state_roundtrip_counterexample :
    (storeSummary emptyDb c2Summary).1.focusStates
      = [{ snapshot_id := 0, state_type := "focused", confidence := 9/10 }] ∧
    getFocusStatesBetween (storeSummary emptyDb c2Summary).1 0 100
      = [{ id := 0, state_type := "scattered", confidence := some 30 }] ∧
    "scattered" ≠ "focused" := by
  refine ⟨rfl, ?_, by decide⟩
  simp [getFocusStatesBetween, storeSummary, c2Summary, emptyDb, avgAttention]
  norm_num

/-- Python s or "" is the identity on strings. -/
theorem pyOr_empty_default (p : String) : pyOr p "" = p := by
  by_cases h : p = "" <;> simp [pyOr, h]

/-- Writing activity rows for snapshot 0 and reading them back through
the view of get_snapshots_between is the identity on activities with
non-empty names and categories. -/
theorem roundtrip_activities_map (l : List Activity)
    (hl : ∀ a ∈ l, a.name ≠ "" ∧ a.category ≠ "") :
    (l.map (fun a =>
        ({ snapshot_id := 0, name := a.name, category := a.category,
           purpose := a.purpose, attention_level := (a.focus_indicators.attention_level : ℚ),
           context_switches := a.focus_indicators.context_switches,
           workspace_organization := a.focus_indicators.workspace_organization } : ActivityRow))).map
      (fun a =>
        ({ name := pyOr a.name "unknown", category := pyOr a.category "unknown",
           purpose := pyOr a.purpose "", attention_level := a.attention_level,
           context_switches := a.context_switches,
           workspace_organization := a.workspace_organization } : ActivityView))
    = l.map (fun a =>
        ({ name := a.name, category := a.category, purpose := a.purpose,
           attention_level := (a.focus_indicators.attention_level : ℚ),
           context_switches := a.focus_indicators.context_switches,
           workspace_organization := a.focus_indicators.workspace_organization } : ActivityView)) := by
  induction l with
  | nil => rfl
  | cons x xs ih =>
    have hx := hl x (by simp)
    simp only [List.map_cons]
    rw [ih (fun a ha => hl a (by simp [ha]))]
    simp [pyOr, hx.1, hx.2, pyOr_empty_default]
    exact fun h => h.symm

/-- C2 amended: storing a valid summary into an empty store and querying
a range spanning the write timestamp returns exactly one snapshot whose
summary and activity fields round-trip unchanged (for activities with
non-empty names and categories, which the read path would otherwise
rewrite to "unknown"); the focus-state read, however, does not return the
stored focus state — it recomputes state_type and confidence from the
average activity attention level. -/
theorem store_roundtrip_of_summary_and_activities :
    ∀ (s : ScreenSummary) (start finish : Nat),
      start ≤ s.timestamp → s.timestamp ≤ finish →
      (∀ a ∈ s.activities, a.name ≠ "" ∧ a.category ≠ "") →
      getSnapshotsBetween (storeSummary emptyDb s).1 start finish
        = [{ id := 0, timestamp := s.timestamp, summary := s.summary
             window_title := "", active_app := "", focus_score := 0
             activities := s.activities.map (fun a =>
               { name := a.name, category := a.category, purpose := a.purpose
                 attention_level := (a.focus_indicators.attention_level : ℚ)
                 context_switches := a.focus_indicators.context_switches
                 workspace_organization := a.focus_indicators.workspace_organization }) }] ∧
      getFocusStatesBetween (storeSummary emptyDb s).1 start finish
        = [(match avgAttention (storeSummary emptyDb s).1 0 with
            | none => { id := 0, state_type := "neutral", confidence := none }
            | some v =>
              { id := 0
                state_type := if 70 ≤ v then "focused"
                  else if v ≤ 45 then "scattered" else "neutral"
                confidence := some v } : FocusStateView)] := by
  intro s start finish h1 h2 h3
  constructor
  · simp only [getSnapshotsBetween, storeSummary, emptyDb, List.nil_append]
    rw [show (([{ id := 0, timestamp := s.timestamp, summary := s.summary,
                  window_title := none, active_app := none,
                  focus_score := some 0 }] : List SnapshotRow).filter (fun r =>
          decide (start ≤ r.timestamp) && decide (r.timestamp ≤ finish)))
      = [{ id := 0, timestamp := s.timestamp, summary := s.summary,
           window_title := none, active_app := none, focus_score := some 0 }] from by
        simp [h1, h2]]
    simp only [sortDesc, List.foldr, insertDesc, List.map_cons, List.map_nil]
    simp only [snapshotView]
    rw [List.filter_eq_self.mpr (by
      intro x hx
      rcases List.mem_map.mp hx with ⟨a, _, rfl⟩
      rfl)]
    rw [roundtrip_activities_map s.activities h3]
    rfl
  · simp only [getFocusStatesBetween, storeSummary, emptyDb, List.nil_append]
    rw [show (([{ id := 0, timestamp := s.timestamp, summary := s.summary,
                  window_title := none, active_app := none,
                  focus_score := some 0 }] : List SnapshotRow).filter (fun r =>
          decide (start ≤ r.timestamp) && decide (r.timestamp ≤ finish)))
      = [{ id := 0, timestamp := s.timestamp, summary := s.summary,
           window_title := none, active_app := none, focus_score := some 0 }] from by
        simp [h1, h2]]
    rfl

/-- C2 witness: the round trip applied to c2Summary over the spanning
range 0..100. -/
theorem store_roundtrip_witness :
    getSnapshotsBetween (storeSummary emptyDb c2Summary).1 0 100
      = [{ id := 0, timestamp := c2Summary.timestamp, summary := c2Summary.summary
           window_title := "", active_app := "", focus_score := 0
           activities := c2Summary.activities.map (fun a =>
             { name := a.name, category := a.category, purpose := a.purpose
               attention_level := (a.focus_indicators.attention_level : ℚ)
               context_switches := a.focus_indicators.context_switches
               workspace_organization := a.focus_indicators.workspace_organization }) }] :=
  (store_roundtrip_of_summary_and_activities c2Summary 0 100
    (by decide) (by decide) (by decide)).1

/-! ### C4: grouping uniform-low activity runs into sessions -/

theorem lastTs_cons (b : TimedActivity) (rest : List TimedActivity) (d : Nat) :
    lastTs (b :: rest) d = lastTs rest b.timestamp := rfl

/-- Folding a run of same-name low-switch activities into an open session
never closes it: the done list is untouched and the current session keeps
its start and type while its end and duration track the last activity. -/
theorem foldl_groupStep_uniform_low (n : String) :
    ∀ (acts : List TimedActivity) (done : List FocusSession) (cur : FocusSession) (d : Nat),
      cur.activity_type = n → cur.end_time = some d →
      cur.duration_minutes = (d - cur.start_time) / 60 →
      (∀ b ∈ acts, b.name = n ∧ b.focus_indicators.context_switches = "low") →
      ∃ cur', acts.foldl groupStep (done, some cur) = (done, some cur') ∧
        cur'.activity_type = n ∧ cur'.start_time = cur.start_time ∧
        cur'.end_time = some (lastTs acts d) ∧
        cur'.duration_minutes = (lastTs acts d - cur.start_time) / 60 := by
  intro acts
  induction acts with
  | nil =>
    intro done cur d h1 h2 h3 _
    exact ⟨cur, rfl, h1, rfl, by simpa [lastTs] using h2, by simpa [lastTs] using h3⟩
  | cons b rest ih =>
    intro done cur d h1 h2 h3 hall
    have hb := hall b (by simp)
    have hstep : groupStep (done, some cur) b = (done, some (cur.add_activity b)) := by
      simp [groupStep, h1, hb.1, hb.2]
    rw [List.foldl_cons, hstep]
    obtain ⟨cur', hfold, p1, p2, p3, p4⟩ :=
      ih done (cur.add_activity b) b.timestamp
        (by simp [FocusSession.add_activity, h1])
        (by simp [FocusSession.add_activity])
        (by simp [FocusSession.add_activity])
        (fun x hx => hall x (by simp [hx]))
    have hstart : (cur.add_activity b).start_time = cur.start_time := rfl
    rw [hstart] at p2 p4
    exact ⟨cur', hfold, p1, p2, by rw [lastTs_cons]; exact p3, by rw [lastTs_cons]; exact p4⟩

/-- C4 counterexample: three same-name activities at 0 s, 600 s and
1200 s whose middle one has high context switches split into two
sessions of 0 and 10 minutes, so the summed duration is 10 minutes while
the first-to-last span is 20 minutes — the inter-session gap is not
counted. -/
theorem group_sessions_duration_counterexample :
    ((groupIntoSessions
      [⟨"work", 0, ⟨80, "low", "organized"⟩⟩,
       ⟨"work", 600, ⟨80, "high", "organized"⟩⟩,
       ⟨"work", 1200, ⟨80, "low", "organized"⟩⟩]).map
        (fun s => s.duration_minutes)).sum = 10 ∧
    (1200 - 0) / 60 = 20 ∧
    (groupIntoSessions
      [⟨"work", 0, ⟨80, "low", "organized"⟩⟩,
       ⟨"work", 600, ⟨80, "high", "organized"⟩⟩,
       ⟨"work", 1200, ⟨80, "low", "organized"⟩⟩]).length = 2 ∧
    (10 : Nat) ≠ 20 := by
  refine ⟨?_, by norm_num, ?_, by norm_num⟩ <;> decide

/-- C4 amended: a non-empty run of same-name low-switch activities
groups into exactly one session whose duration is the whole-minute span
from the first to the last timestamp; making one middle activity
high-switch splits the run into exactly two sessions, and the summed
duration is the span minus the gap between the last activity before the
switch and the high-switch activity (each session's span truncated to
whole minutes) — not the full first-to-last span. -/
theorem group_sessions_split_characterization :
    (∀ (n : String) (a : TimedActivity) (rest : List TimedActivity),
      a.name = n → a.focus_indicators.context_switches = "low" →
      (∀ b ∈ rest, b.name = n ∧ b.focus_indicators.context_switches = "low") →
      (groupIntoSessions (a :: rest)).length = 1 ∧
      ((groupIntoSessions (a :: rest)).map (fun s => s.duration_minutes)).sum
        = (lastTs rest a.timestamp - a.timestamp) / 60) ∧
    (∀ (n : String) (a : TimedActivity) (pre : List TimedActivity)
      (b : TimedActivity) (post : List TimedActivity),
      a.name = n → a.focus_indicators.context_switches = "low" →
      (∀ x ∈ pre, x.name = n ∧ x.focus_indicators.context_switches = "low") →
      b.name = n → b.focus_indicators.context_switches = "high" →
      (∀ x ∈ post, x.name = n ∧ x.focus_indicators.context_switches = "low") →
      (groupIntoSessions (a :: (pre ++ b :: post))).length = 2 ∧
      ((groupIntoSessions (a :: (pre ++ b :: post))).map (fun s => s.duration_minutes)).sum
        = (lastTs pre a.timestamp - a.timestamp) / 60
          + (lastTs post b.timestamp - b.timestamp) / 60) := by
  constructor
  · intro n a rest h1 h2 hall
    obtain ⟨cur', hfold, p1, p2, p3, p4⟩ :=
      foldl_groupStep_uniform_low n rest [] ((newSession a).add_activity a) a.timestamp
        (by simp [FocusSession.add_activity, newSession, h1])
        (by simp [FocusSession.add_activity])
        (by simp [FocusSession.add_activity])
        hall
    have hg : groupIntoSessions (a :: rest) = [cur'] := by
      unfold groupIntoSessions
      rw [List.foldl_cons]
      have hfirst : groupStep ([], none) a = ([], some ((newSession a).add_activity a)) := rfl
      rw [hfirst, hfold]
      rfl
    have hs : ((newSession a).add_activity a).start_time = a.timestamp := rfl
    rw [hs] at p4
    simp [hg, p4]
  · intro n a pre b post h1 h2 hpre hb1 hb2 hpost
    obtain ⟨c1, hfold1, q1, q2, q3, q4⟩ :=
      foldl_groupStep_uniform_low n pre [] ((newSession a).add_activity a) a.timestamp
        (by simp [FocusSession.add_activity, newSession, h1])
        (by simp [FocusSession.add_activity])
        (by simp [FocusSession.add_activity])
        hpre
    obtain ⟨c2, hfold2, r1, r2, r3, r4⟩ :=
      foldl_groupStep_uniform_low n post [c1] ((newSession b).add_activity b) b.timestamp
        (by simp [FocusSession.add_activity, newSession, hb1])
        (by simp [FocusSession.add_activity])
        (by simp [FocusSession.add_activity])
        hpost
    have hstepb : groupStep ([], some c1) b = ([c1], some ((newSession b).add_activity b)) := by
      simp [groupStep, hb2]
    have hg : groupIntoSessions (a :: (pre ++ b :: post)) = [c1, c2] := by
      unfold groupIntoSessions
      rw [List.foldl_cons]
      have hfirst : groupStep ([], none) a = ([], some ((newSession a).add_activity a)) := rfl
      rw [hfirst, List.foldl_append, hfold1, List.foldl_cons, hstepb, hfold2]
      rfl
    have hs1 : ((newSession a).add_activity a).start_time = a.timestamp := rfl
    have hs2 : ((newSession b).add_activity b).start_time = b.timestamp := rfl
    rw [hs1] at q4
    rw [hs2] at r4
    simp [hg, q4, r4]

/-- C4 witness: the characterization applied to a concrete uniform run
(two low activities at 0 s and 60 s: one session of 1 minute) and to a
concrete split run (low at 0 s and 600 s, high at 1200 s, low at 1800 s:
two sessions totalling 20 minutes). -/
theorem group_sessions_split_characterization_witness :
    ((groupIntoSessions
      [⟨"work", 0, ⟨80, "low", "organized"⟩⟩,
       ⟨"work", 60, ⟨70, "low", "organized"⟩⟩]).length = 1 ∧
      ((groupIntoSessions
        [⟨"work", 0, ⟨80, "low", "organized"⟩⟩,
         ⟨"work", 60, ⟨70, "low", "organized"⟩⟩]).map
          (fun s => s.duration_minutes)).sum
        = (lastTs [⟨"work", 60, ⟨70, "low", "organized"⟩⟩] 0 - 0) / 60) ∧
    ((groupIntoSessions
      [⟨"work", 0, ⟨80, "low", "organized"⟩⟩,
       ⟨"work", 600, ⟨80, "low", "organized"⟩⟩,
       ⟨"work", 1200, ⟨80, "high", "organized"⟩⟩,
       ⟨"work", 1800, ⟨80, "low", "organized"⟩⟩]).length = 2 ∧
      ((groupIntoSessions
        [⟨"work", 0, ⟨80, "low", "organized"⟩⟩,
         ⟨"work", 600, ⟨80, "low", "organized"⟩⟩,
         ⟨"work", 1200, ⟨80, "high", "organized"⟩⟩,
         ⟨"work", 1800, ⟨80, "low", "organized"⟩⟩]).map
          (fun s => s.duration_minutes)).sum
        = (lastTs [⟨"work", 600, ⟨80, "low", "organized"⟩⟩] 0 - 0) / 60
          + (lastTs [⟨"work", 1800, ⟨80, "low", "organized"⟩⟩] 1200 - 1200) / 60) :=
  ⟨group_sessions_split_characterization.1 "work"
      ⟨"work", 0, ⟨80, "low", "organized"⟩⟩
      [⟨"work", 60, ⟨70, "low", "organized"⟩⟩] rfl rfl (by decide),
   group_sessions_split_characterization.2 "work"
      ⟨"work", 0, ⟨80, "low", "organized"⟩⟩
      [⟨"work", 600, ⟨80, "low", "organized"⟩⟩]
      ⟨"work", 1200, ⟨80, "high", "organized"⟩⟩
      [⟨"work", 1800, ⟨80, "low", "organized"⟩⟩]
      rfl rfl (by decide) rfl rfl (by decide)⟩

end ManagerMccode
